import Mathlib

/-!
Shallow embedding of the openHealth Local Health Store (src/services/db.ts)
and the bulk-entry submission path of the AddReading page.

The store keeps four collections backed by IndexedDB object stores keyed by
an `id` string (the preferences store is keyed by the fixed key
"user_prefs").  We model each collection as a Lean list whose IndexedDB
`put` is an upsert by key, and the preferences store as an optional record.

IndexedDB commits each transaction atomically.  We model observable commit
boundaries explicitly: each composite operation comes with a `...Commits`
definition listing the store states at its successive transaction commits,
in order.  An interruption of the operation leaves the store at the initial
state or at one of the commit states; atomicity of the whole operation
means the commit list has at most one element.

JavaScript values in numeric fields are modelled by `JSNumber` (NaN, a
rational, or the null a JSON round trip can inject); the platform pieces
used by the code (`parseFloat`, `new Date(...).toISOString()`,
`String.prototype.trim/split/toLowerCase`) are embedded as total Lean
functions faithful on the inputs the app documents (plain decimal literals
and YYYY-MM-DD dates).  Export produces `JSON.stringify(profile)` and
the importing side starts with `JSON.parse`, so the round-trip composition
passes the snapshot through `jsonRoundTrip`, which is the identity on
strings and object shape but writes NaN-valued numeric fields as null.
-/

namespace OpenHealth

/-- A JavaScript value held in a numeric field of the app: NaN (e.g.
`parseFloat` of a non-numeric string), a decimal value modelled as a
rational, or null — `JSON.stringify` writes NaN as null and the runtime
is untyped, so an import can store null where the TypeScript type says
number and no code path validates it. -/
inductive JSNumber where
  | nan : JSNumber
  | num : Rat → JSNumber
  | jsNull : JSNumber
deriving DecidableEq

/-- `Patient` from src/types.ts. -/
structure Patient where
  id : String
  name : String
  age : Option JSNumber
deriving DecidableEq

/-- `TestReference` from src/types.ts. -/
structure TestReference where
  id : String
  testName : String
  category : Option String
  unit : String
  defaultIdealMin : Option JSNumber
  defaultIdealMax : Option JSNumber
deriving DecidableEq

/-- `TestReading` from src/types.ts. -/
structure TestReading where
  id : String
  patientId : String
  testName : String
  date : String
  reason : Option String
  value : JSNumber
  idealMin : Option JSNumber
  idealMax : Option JSNumber
  unit : String
  notes : Option String
deriving DecidableEq

/-- `UserPreferences` from src/types.ts; the enum-valued sort fields are
modelled as strings, an absent field as `none`. -/
structure UserPreferences where
  sortMembersBy : Option String
  filterMembersQuery : Option String
  sortTestsBy : Option String
  filterTestsQuery : Option String
deriving DecidableEq

/-- The four collections of the HealthTrackerDB database.  Each object
store is a list of records (IndexedDB keeps keys unique; we carry the
id-uniqueness invariant as a hypothesis where a proof needs it).  The
preferences store holds at most the one record at key "user_prefs". -/
structure Store where
  patients : List Patient
  readings : List TestReading
  testReferences : List TestReference
  preferences : Option UserPreferences
deriving DecidableEq

/-- IndexedDB `put` into a store with key path `key`: replaces the record
with the same key if one exists, otherwise appends the new record. -/
def putBy {α : Type} (key : α → String) (x : α) (l : List α) : List α :=
  if l.any (fun y => key y = key x) then l.map (fun y => if key y = key x then x else y)
  else l ++ [x]

/-- `getPatients`: `db.getAll('patients')`. -/
def getPatients (s : Store) : List Patient :=
  s.patients

/-- `db.getAll('readings')` as used by `exportEntireProfile`. -/
def getAllReadings (s : Store) : List TestReading :=
  s.readings

/-- `getPatientReadings`: `db.getAllFromIndex('readings', 'by-patientId', patientId)`. -/
def getPatientReadings (patientId : String) (s : Store) : List TestReading :=
  s.readings.filter (fun r => r.patientId = patientId)

/-- `getTestReferences`: `db.getAll('testReferences')`. -/
def getTestReferences (s : Store) : List TestReference :=
  s.testReferences

/-- The empty object `{}` returned by `getPreferences` when nothing was saved. -/
def emptyPreferences : UserPreferences :=
  ⟨none, none, none, none⟩

/-- `getPreferences`: `(await db.get('preferences', 'user_prefs')) || {}`. -/
def getPreferences (s : Store) : UserPreferences :=
  s.preferences.getD emptyPreferences

/-- `savePatient`: `db.put('patients', patient)`. -/
def savePatient (p : Patient) (s : Store) : Store :=
  { s with patients := putBy Patient.id p s.patients }

/-- First transaction of `deletePatient`: the single-operation
`db.delete('patients', id)`, which auto-commits on its own. -/
def deletePatientStep1 (id : String) (s : Store) : Store :=
  { s with patients := s.patients.filter (fun p => p.id ≠ id) }

/-- Second transaction of `deletePatient`: one readwrite transaction on
`readings` that walks the by-patientId index and deletes every match. -/
def deletePatientStep2 (id : String) (s : Store) : Store :=
  { s with readings := s.readings.filter (fun r => r.patientId ≠ id) }

/-- `deletePatient`: patient delete followed by the readings cascade. -/
def deletePatient (id : String) (s : Store) : Store :=
  deletePatientStep2 id (deletePatientStep1 id s)

/-- The commit boundaries of `deletePatient`: the code runs TWO
transactions (the bare `db.delete`, then the cascade transaction), so two
states become durable in turn. -/
def deletePatientCommits (id : String) (s : Store) : List Store :=
  [deletePatientStep1 id s, deletePatient id s]

/-- The space characters matched by the JavaScript regex class `\s`
(restricted to ASCII, which is all the app feeds it). -/
def isJsSpace (c : Char) : Bool :=
  c = ' ' || c = '\t' || c = '\n' || c = '\r' || c = '\x0b' || c = '\x0c'

/-- Core of `.replace(/\s+/g, '-')`: each maximal run of whitespace
becomes a single dash.  The flag records whether the previous character
was part of a whitespace run already replaced. -/
def collapseSpacesAux : List Char → Bool → List Char
  | [], _ => []
  | c :: cs, inRun =>
    if isJsSpace c then
      if inRun then collapseSpacesAux cs true
      else '-' :: collapseSpacesAux cs true
    else c :: collapseSpacesAux cs false

/-- `.replace(/\s+/g, '-')` on a whole string. -/
def collapseSpaces (s : String) : String :=
  ⟨collapseSpacesAux s.data false⟩

/-- JavaScript `toLowerCase`, character by character (the simple case
mapping; the app only feeds it ASCII test names). -/
def jsToLower (s : String) : String :=
  ⟨s.data.map Char.toLower⟩

/-- The id `saveReading` derives for a synthesized reference:
`reading.testName.toLowerCase().replace(/\s+/g, '-')`. -/
def derivedRefId (testName : String) : String :=
  collapseSpaces (jsToLower testName)

/-- The `TestReference` object `saveReading` / `bulkSaveReadings` put when
no reference with the reading's test name exists. -/
def derivedRef (r : TestReading) : TestReference :=
  { id := derivedRefId r.testName, testName := r.testName, category := none,
    unit := r.unit, defaultIdealMin := r.idealMin, defaultIdealMax := r.idealMax }

/-- The per-reading body shared verbatim by `saveReading` and the loop of
`bulkSaveReadings`: put the reading, then look up references by the
by-testName index (exact string match) and put the derived reference if
none was found. -/
def saveReadingStep (r : TestReading) (s : Store) : Store :=
  let s1 : Store := { s with readings := putBy TestReading.id r s.readings }
  let existingRefs := s1.testReferences.filter (fun t => t.testName = r.testName)
  if existingRefs.isEmpty then
    { s1 with testReferences := putBy TestReference.id (derivedRef r) s1.testReferences }
  else s1

/-- `saveReading`. -/
def saveReading (r : TestReading) (s : Store) : Store :=
  saveReadingStep r s

/-- `bulkSaveReadings`: the same per-reading body, folded over the batch. -/
def bulkSaveReadings (rs : List TestReading) (s : Store) : Store :=
  rs.foldl (fun acc r => saveReadingStep r acc) s

/-- `bulkSaveReadings` opens ONE readwrite transaction over `readings` and
`testReferences` and awaits `tx.done` once, so there is exactly one commit
boundary carrying every write of the batch. -/
def bulkSaveReadingsCommits (rs : List TestReading) (s : Store) : List Store :=
  [bulkSaveReadings rs s]

/-- `saveTestReference`: `db.put('testReferences', ref)`. -/
def saveTestReference (t : TestReference) (s : Store) : Store :=
  { s with testReferences := putBy TestReference.id t s.testReferences }

/-- The JavaScript object spread `{ ...existing, ...prefs }`: a field
present on `prefs` wins, an absent one falls back to `existing`. -/
def spreadPrefs (existing given : UserPreferences) : UserPreferences :=
  { sortMembersBy := given.sortMembersBy <|> existing.sortMembersBy,
    filterMembersQuery := given.filterMembersQuery <|> existing.filterMembersQuery,
    sortTestsBy := given.sortTestsBy <|> existing.sortTestsBy,
    filterTestsQuery := given.filterTestsQuery <|> existing.filterTestsQuery }

/-- `savePreferences`: read the existing record, spread the partial update
over it, and put the merge back at the fixed key "user_prefs". -/
def savePreferences (prefs : UserPreferences) (s : Store) : Store :=
  { s with preferences := some (spreadPrefs (getPreferences s) prefs) }

/-- The JSON payload `importProfile` inspects, with one optional field per
top-level key any of the three accepted shapes uses.  An absent or null
key is `none` (both are falsy in the JavaScript truthiness tests). -/
structure ImportPayload where
  patients : Option (List Patient)
  readings : Option (List TestReading)
  patient : Option Patient
  testReferences : Option (List TestReference)
  preferences : Option UserPreferences
deriving DecidableEq

/-- `exportEntireProfile`: gathers all patients, all readings, all
references and the preferences singleton into the `UserProfile` snapshot
that the source passes to `JSON.stringify`.  The serialization itself —
`JSON.stringify` here, `JSON.parse` at the start of `importProfile` — is
modelled by `jsonRoundTrip` below, so feeding an export back means
applying `importProfile` to `jsonRoundTrip` of this value. -/
def exportEntireProfile (s : Store) : ImportPayload :=
  { patients := some (getPatients s), readings := some (getAllReadings s),
    patient := none, testReferences := some (getTestReferences s),
    preferences := some (getPreferences s) }

/-- What a numeric field holds after `JSON.parse(JSON.stringify(...))`:
`JSON.stringify` writes NaN (a non-finite number) as null, finite numbers
print and re-parse exactly, and null stays null. -/
def jsonNum : JSNumber → JSNumber
  | .nan => .jsNull
  | .num q => .num q
  | .jsNull => .jsNull

/-- `jsonNum` under an optional field: an absent key stays absent. -/
def jsonNumOpt : Option JSNumber → Option JSNumber
  | none => none
  | some v => some (jsonNum v)

/-- JSON round trip of a `Patient`: only the numeric `age` can change. -/
def jsonPatient (p : Patient) : Patient :=
  { p with age := jsonNumOpt p.age }

/-- JSON round trip of a `TestReading`: the numeric `value`, `idealMin`
and `idealMax` pass through `jsonNum`; strings survive unchanged. -/
def jsonReading (r : TestReading) : TestReading :=
  { r with value := jsonNum r.value, idealMin := jsonNumOpt r.idealMin,
           idealMax := jsonNumOpt r.idealMax }

/-- JSON round trip of a `TestReference`: the numeric default bounds pass
through `jsonNum`. -/
def jsonReference (t : TestReference) : TestReference :=
  { t with defaultIdealMin := jsonNumOpt t.defaultIdealMin,
           defaultIdealMax := jsonNumOpt t.defaultIdealMax }

/-- `JSON.parse(JSON.stringify(payload))`: object shape, strings and the
all-string preferences record survive; every NaN in a numeric field comes
back as null. -/
def jsonRoundTrip (d : ImportPayload) : ImportPayload :=
  { patients := d.patients.map (List.map jsonPatient),
    readings := d.readings.map (List.map jsonReading),
    patient := d.patient.map jsonPatient,
    testReferences := d.testReferences.map (List.map jsonReference),
    preferences := d.preferences }

/-- The full-profile branch of `importProfile`: upsert every patient and
every reading, upsert references when the key is present, and replace the
preferences singleton when the key is present — all in one transaction. -/
def importFull (d : ImportPayload) (s : Store) : Store :=
  let s1 : Store := { s with patients := (d.patients.getD []).foldl (fun l p => putBy Patient.id p l) s.patients }
  let s2 : Store := { s1 with readings := (d.readings.getD []).foldl (fun l r => putBy TestReading.id r l) s1.readings }
  let s3 : Store :=
    match d.testReferences with
    | some refs => { s2 with testReferences := refs.foldl (fun l t => putBy TestReference.id t l) s2.testReferences }
    | none => s2
  match d.preferences with
  | some p => { s3 with preferences := some p }
  | none => s3

/-- The single-member branch of `importProfile`: upsert the one patient
and every reading, in one transaction. -/
def importMember (d : ImportPayload) (s : Store) : Store :=
  let s1 : Store :=
    match d.patient with
    | some p => { s with patients := putBy Patient.id p s.patients }
    | none => s
  { s1 with readings := (d.readings.getD []).foldl (fun l r => putBy TestReading.id r l) s1.readings }

/-- The references-only branch of `importProfile`: upsert each reference,
in one transaction. -/
def importRefs (d : ImportPayload) (s : Store) : Store :=
  { s with testReferences := (d.testReferences.getD []).foldl (fun l t => putBy TestReference.id t l) s.testReferences }

/-- `importProfile`: the if/else-if chain of the source, testing key
presence in order (patients AND readings, then patient AND readings, then
testReferences), else throwing "Invalid import format". -/
def importProfile (d : ImportPayload) (s : Store) : Except String Store :=
  if d.patients.isSome && d.readings.isSome then .ok (importFull d s)
  else if d.patient.isSome && d.readings.isSome then .ok (importMember d s)
  else if d.testReferences.isSome then .ok (importRefs d s)
  else .error "Invalid import format"

/-- Every accepted branch of `importProfile` runs exactly one transaction,
so a successful import has one commit and a rejected payload commits
nothing. -/
def importProfileCommits (d : ImportPayload) (s : Store) : List Store :=
  match importProfile d s with
  | .ok s1 => [s1]
  | .error _ => []

/-- Modelled from the spec (import shape-sniffing, tried in order): the
tagged union of the three recognized snapshot shapes plus the rejection
case. -/
inductive ImportShape where
  | full : ImportShape
  | member : ImportShape
  | refsOnly : ImportShape
  | invalid : ImportShape
deriving DecidableEq

/-- Modelled from the spec: classify a payload by trying, in order,
full-profile (patients list and readings list both present), single-member
(singular patient object and readings list), references-only
(testReferences list), and otherwise the invalid shape. -/
def classifyShape (d : ImportPayload) : ImportShape :=
  if d.patients.isSome && d.readings.isSome then .full
  else if d.patient.isSome && d.readings.isSome then .member
  else if d.testReferences.isSome then .refsOnly
  else .invalid

/-- Value of a digit string, most significant digit first. -/
def digitsVal (l : List Char) : Nat :=
  l.foldl (fun acc c => acc * 10 + (c.toNat - 48)) 0

/-- JavaScript `parseFloat` on the plain decimal literals the bulk parser
feeds it: an optional sign, then digits with an optional fraction; any
other string yields NaN.  It never throws. -/
def jsParseFloat (s : String) : JSNumber :=
  let cs := s.data
  let signed : Rat × List Char :=
    match cs with
    | '-' :: t => (-1, t)
    | '+' :: t => (1, t)
    | _ => (1, cs)
  let intPart := signed.2.takeWhile Char.isDigit
  let rest := signed.2.dropWhile Char.isDigit
  let fracPart :=
    match rest with
    | '.' :: t => t.takeWhile Char.isDigit
    | _ => []
  if intPart.isEmpty ∧ fracPart.isEmpty then .nan
  else .num (signed.1 * ((digitsVal intPart : Rat) + (digitsVal fracPart : Rat) / ((10 : Rat) ^ fracPart.length)))

/-- Leap years of the Gregorian calendar. -/
def isLeapYear (y : Nat) : Bool :=
  (y % 4 = 0 && y % 100 ≠ 0) || y % 400 = 0

/-- Days in a month. -/
def daysInMonth (y m : Nat) : Nat :=
  if m = 2 then (if isLeapYear y then 29 else 28)
  else if m = 4 || m = 6 || m = 9 || m = 11 then 30
  else 31

/-- `new Date(s).toISOString()` on the YYYY-MM-DD date-only strings the
bulk-entry format documents: a valid calendar date maps to the midnight
UTC ISO string, anything else is an Invalid Date whose `toISOString`
throws, modelled as `none`. -/
def jsDateToISO (s : String) : Option String :=
  match s.splitOn "-" with
  | [y, m, d] =>
    let yn := digitsVal y.data
    let mn := digitsVal m.data
    let dn := digitsVal d.data
    if y.length = 4 ∧ m.length = 2 ∧ d.length = 2
        ∧ y.data.all Char.isDigit ∧ m.data.all Char.isDigit ∧ d.data.all Char.isDigit
        ∧ 1 ≤ mn ∧ mn ≤ 12 ∧ 1 ≤ dn ∧ dn ≤ daysInMonth yn mn
    then some (s ++ "T00:00:00.000Z") else none
  | _ => none

/-- One line of `handleBulkSubmit`: split on commas, trim each part,
reject lines with fewer than 4 parts with the "Invalid format" error, and
build the reading; an unparseable date makes `toISOString` throw, which
also aborts the whole map. -/
def parseBulkLine (newId patientId line : String) : Except String TestReading :=
  let parts := (line.splitOn ",").map String.trim
  if parts.length < 4 then .error ("Invalid format on line: " ++ line)
  else
    match jsDateToISO (parts.getD 3 "") with
    | none => .error "Invalid time value"
    | some iso =>
      .ok { id := newId, patientId := patientId, testName := parts.getD 0 "",
            date := iso, reason := none, value := jsParseFloat (parts.getD 1 ""),
            idealMin := if parts.getD 4 "" ≠ "" then some (jsParseFloat (parts.getD 4 "")) else none,
            idealMax := if parts.getD 5 "" ≠ "" then some (jsParseFloat (parts.getD 5 "")) else none,
            unit := parts.getD 2 "", notes := none }

/-- The `lines.map(...)` of `handleBulkSubmit`: the first throwing line
aborts the whole batch before anything is saved.  Each line gets a fresh
uuid, supplied here by its index. -/
def parseBulkLines (ids : Nat → String) (patientId : String) : List (Nat × String) → Except String (List TestReading)
  | [] => .ok []
  | (i, line) :: rest => do
    let r ← parseBulkLine (ids i) patientId line
    let rs ← parseBulkLines ids patientId rest
    pure (r :: rs)

/-- `bulkText.split('\n').filter(l => l.trim() !== '')`. -/
def bulkLines (text : String) : List String :=
  (text.splitOn "\n").filter (fun l => l.trim ≠ "")

/-- The whole parse phase of `handleBulkSubmit`. -/
def parseBulk (ids : Nat → String) (patientId text : String) : Except String (List TestReading) :=
  let lines := bulkLines text
  parseBulkLines ids patientId ((List.range lines.length).zip lines)

/-- Commit boundaries of `handleBulkSubmit`: an empty text returns early,
a parse error is caught by the surrounding try/catch (alert, no rethrow)
before any store call, and a fully parsed batch goes to
`bulkSaveReadings`, whose single transaction is the only commit. -/
def handleBulkSubmitCommits (ids : Nat → String) (patientId text : String) (s : Store) : List Store :=
  if text.trim = "" then []
  else
    match parseBulk ids patientId text with
    | .error _ => []
    | .ok rs => bulkSaveReadingsCommits rs s

/-- A store with no records at all. -/
def emptyStore : Store :=
  { patients := [], readings := [], testReferences := [], preferences := none }

/-- Sample patient, as in the scenario of the spec. -/
def samplePatient1 : Patient :=
  { id := "p1", name := "Alice", age := none }

/-- Sample reading owned by `samplePatient1`. -/
def sampleReading1 : TestReading :=
  { id := "r1", patientId := "p1", testName := "Hemoglobin",
    date := "2026-01-01T00:00:00.000Z", reason := none, value := .num 13,
    idealMin := none, idealMax := none, unit := "g/dL", notes := none }

/-- A second reading with the same test name as `sampleReading1`. -/
def sampleReading2 : TestReading :=
  { id := "r2", patientId := "p1", testName := "Hemoglobin",
    date := "2026-02-01T00:00:00.000Z", reason := none, value := .num 14,
    idealMin := none, idealMax := none, unit := "g/dL", notes := none }

/-- A reading whose test name is the all-lower-case variant of the one of
`sampleReading1`. -/
def sampleReadingLower : TestReading :=
  { id := "r3", patientId := "p1", testName := "hemoglobin",
    date := "2026-03-01T00:00:00.000Z", reason := none, value := .num 12,
    idealMin := none, idealMax := none, unit := "g/dL", notes := none }

/-- A store holding `samplePatient1` and their reading `sampleReading1`. -/
def sampleStore1 : Store :=
  { patients := [samplePatient1], readings := [sampleReading1],
    testReferences := [], preferences := none }

/-- A reference whose id happens to be the id `saveReading` would derive
for the test name "Hemoglobin", while its own test name differs. -/
def refClash : TestReference :=
  { id := "hemoglobin", testName := "Hb", category := none, unit := "g/dL",
    defaultIdealMin := none, defaultIdealMax := none }

/-- A store holding only `refClash`. -/
def storeRefClash : Store :=
  { patients := [], readings := [], testReferences := [refClash], preferences := none }

/-- A catalog-style reference for "Hemoglobin" under its own id, as the
seed catalog supplies on first initialization. -/
def refSeeded : TestReference :=
  { id := "default-hb", testName := "Hemoglobin", category := none, unit := "g/dL",
    defaultIdealMin := none, defaultIdealMax := none }

/-- A store holding only the seeded reference `refSeeded`. -/
def storeSeeded : Store :=
  { patients := [], readings := [], testReferences := [refSeeded], preferences := none }

/-- A reading whose value is NaN, as the bulk path stores when the value
field of a pasted line is not numeric (`parseFloat` is never checked). -/
def sampleReadingNan : TestReading :=
  { id := "r4", patientId := "p1", testName := "Hemoglobin",
    date := "2026-04-01T00:00:00.000Z", reason := none, value := .nan,
    idealMin := none, idealMax := none, unit := "g/dL", notes := none }

/-- A store holding `samplePatient1` and the NaN-valued reading. -/
def storeNan : Store :=
  { patients := [samplePatient1], readings := [sampleReadingNan],
    testReferences := [], preferences := none }

/-- An import payload carrying a patients list and a references list but
no readings list. -/
def payloadPatientsRefs : ImportPayload :=
  { patients := some [samplePatient1], readings := none, patient := none,
    testReferences := some [refSeeded], preferences := none }

/-- Helper: filtering for a key value after everything with that key value
was filtered away yields nothing. -/
theorem filter_eq_after_filter_ne {α : Type} (f : α → String) (id : String) (l : List α) :
    (l.filter (fun x => f x ≠ id)).filter (fun x => f x = id) = [] := by
  induction l with
  | nil => rfl
  | cons a t ih =>
    by_cases h : f a = id <;> simp [h, ih]

/-- C6: for every store and patient id, after `deletePatient` completes
no reading with that patientId remains and the patient is absent from the
patients collection, for any number of owned readings. -/
theorem deletePatient_cascade_complete (id : String) (s : Store) :
    (deletePatient id s).readings.filter (fun r => r.patientId = id) = []
    ∧ (deletePatient id s).patients.filter (fun p => p.id = id) = [] := by
  constructor
  · exact filter_eq_after_filter_ne TestReading.patientId id s.readings
  · exact filter_eq_after_filter_ne Patient.id id s.patients

/-- C9: `deletePatient` leaves the testReferences collection unchanged:
the cascade touches only the patients and readings stores. -/
theorem deletePatient_preserves_references (id : String) (s : Store) :
    (deletePatient id s).testReferences = s.testReferences :=
  rfl

/-- C1 counterexample: on a store with patient "p1" and their reading,
the state after the first commit of `deletePatient` — durable if execution
stops before the second transaction — has the patient gone while their
reading remains: a half-deleted state, distinct from both the initial and
the final state, observable to subsequent reads. -/
theorem deletePatient_not_atomic_counterexample :
    ∃ mid ∈ deletePatientCommits "p1" sampleStore1,
      mid.patients.filter (fun p => p.id = "p1") = []
      ∧ mid.readings.filter (fun r => r.patientId = "p1") ≠ []
      ∧ mid ≠ sampleStore1 ∧ mid ≠ deletePatient "p1" sampleStore1 := by
  refine ⟨deletePatientStep1 "p1" sampleStore1, by decide, by decide, by decide, by decide, by decide⟩

/-- C1 amended: `deletePatient` runs as two separately committed
transactions, not one: first the bare patient delete (all readings still
present at its commit), then the cascade transaction removing every
reading of the patient; each transaction is atomic by itself, but an
interruption between the two leaves the patient deleted with all their
readings remaining. -/
theorem deletePatient_two_transactions (id : String) (s : Store) :
    deletePatientCommits id s =
      [{ s with patients := s.patients.filter (fun p => p.id ≠ id) },
       { s with patients := s.patients.filter (fun p => p.id ≠ id),
                readings := s.readings.filter (fun r => r.patientId ≠ id) }] :=
  rfl

/-- C8: reading the preferences after `savePreferences` shows, field by
field, the value given in the partial update when one was given, and the
previously stored value when the field was unspecified. -/
theorem savePreferences_merge (s : Store) (p : UserPreferences) :
    getPreferences (savePreferences p s) =
      { sortMembersBy := p.sortMembersBy.or (getPreferences s).sortMembersBy,
        filterMembersQuery := p.filterMembersQuery.or (getPreferences s).filterMembersQuery,
        sortTestsBy := p.sortTestsBy.or (getPreferences s).sortTestsBy,
        filterTestsQuery := p.filterTestsQuery.or (getPreferences s).filterTestsQuery } := by
  obtain ⟨a, b, c, d⟩ := p
  cases a <;> cases b <;> cases c <;> cases d <;> rfl

/-- C5: `importProfile` dispatches exactly along the ordered shape
classification of the spec — full-profile first, then single-member, then
references-only — and a payload matching none of the three shapes fails
with the Invalid-Format error and commits no write to any collection. -/
theorem importProfile_classification (d : ImportPayload) (s : Store) :
    importProfile d s =
      (match classifyShape d with
       | .full => .ok (importFull d s)
       | .member => .ok (importMember d s)
       | .refsOnly => .ok (importRefs d s)
       | .invalid => .error "Invalid import format")
    ∧ (classifyShape d = .invalid → importProfileCommits d s = []) := by
  by_cases h1 : (d.patients.isSome && d.readings.isSome) = true
  · constructor
    · simp [importProfile, classifyShape, h1]
    · intro h
      simp [classifyShape, h1] at h
  · by_cases h2 : (d.patient.isSome && d.readings.isSome) = true
    · constructor
      · simp [importProfile, classifyShape, h1, h2]
      · intro h
        simp [classifyShape, h1, h2] at h
    · by_cases h3 : d.testReferences.isSome = true
      · constructor
        · simp [importProfile, classifyShape, h1, h2, h3]
        · intro h
          simp [classifyShape, h1, h2, h3] at h
      · constructor
        · simp [importProfile, classifyShape, h1, h2, h3]
        · intro _
          simp [importProfileCommits, importProfile, h1, h2, h3]

/-- C4: the bulk-save path commits at most once: a batch in which any line
is malformed (too few fields, or an unparseable date) is rejected whole
during parsing and nothing is written, and a fully parsed batch is
persisted by the single transaction of `bulkSaveReadings`, which carries
every reading upsert and every derived reference insert of the batch —
never a partial subset. -/
theorem handleBulkSubmit_atomic (ids : Nat → String) (patientId text : String) (s : Store) :
    handleBulkSubmitCommits ids patientId text s = []
    ∨ ∃ rs, parseBulk ids patientId text = .ok rs
        ∧ handleBulkSubmitCommits ids patientId text s = [bulkSaveReadings rs s] := by
  unfold handleBulkSubmitCommits
  by_cases he : text.trim = ""
  · exact .inl (by simp [he])
  · cases h : parseBulk ids patientId text with
    | error e => exact .inl (by simp [he, h])
    | ok rs => exact .inr ⟨rs, rfl, by simp [he, h, bulkSaveReadingsCommits]⟩

/-- Helper: `putBy` appends when no record in the list carries the key of
the new record. -/
theorem putBy_append_of_fresh {α : Type} (key : α → String) (x : α) (l : List α)
    (h : ∀ y ∈ l, key y ≠ key x) : putBy key x l = l ++ [x] := by
  unfold putBy
  rw [if_neg]
  simp only [List.any_eq_true, decide_eq_true_eq, not_exists, not_and]
  intro y hy
  exact h y hy

/-- Helper: when the by-testName lookup of the save body finds nothing,
the derived reference is put into the references collection. -/
theorem saveReadingStep_refs_of_missing (r : TestReading) (s : Store)
    (h : s.testReferences.filter (fun t => t.testName = r.testName) = []) :
    (saveReadingStep r s).testReferences
      = putBy TestReference.id (derivedRef r) s.testReferences := by
  unfold saveReadingStep
  simp [h]

/-- Helper: when the by-testName lookup of the save body finds an existing
reference, the references collection is untouched. -/
theorem saveReadingStep_refs_of_existing (r : TestReading) (s : Store)
    (h : (s.testReferences.filter (fun t => t.testName = r.testName)).isEmpty = false) :
    (saveReadingStep r s).testReferences = s.testReferences := by
  unfold saveReadingStep
  simp [h]

/-- C3 counterexample: the store `storeRefClash` holds no reference whose
test name is "Hemoglobin", yet saving `sampleReading1` (test name
"Hemoglobin") inserts no new reference record: the derived id collides
with the id of the unrelated existing reference `refClash`, so the put
replaces that record instead — the collection size stays 1 and `refClash`
is destroyed. -/
theorem saveReading_insert_counterexample :
    storeRefClash.testReferences.filter (fun t => t.testName = sampleReading1.testName) = []
    ∧ (saveReading sampleReading1 storeRefClash).testReferences.length
        = storeRefClash.testReferences.length
    ∧ refClash ∉ (saveReading sampleReading1 storeRefClash).testReferences := by
  refine ⟨by decide, by decide, by decide⟩

/-- C3 amended: when no reference with the reading's test name exists,
`saveReading` upserts by id the reference derived from the reading (id =
test name lower-cased with whitespace runs collapsed to "-", unit and
ideal bounds copied from the reading); when additionally no existing
reference carries the derived id, this inserts exactly one new record,
and saving a second reading with the same test name inserts nothing
further. -/
theorem saveReading_derives_reference (s : Store) (r r2 : TestReading)
    (hname : s.testReferences.filter (fun t => t.testName = r.testName) = [])
    (hid : ∀ t ∈ s.testReferences, t.id ≠ derivedRefId r.testName)
    (hsame : r2.testName = r.testName) :
    (saveReading r s).testReferences = s.testReferences ++ [derivedRef r]
    ∧ (saveReading r2 (saveReading r s)).testReferences
        = (saveReading r s).testReferences := by
  have hfirst : (saveReading r s).testReferences = s.testReferences ++ [derivedRef r] := by
    rw [saveReading, saveReadingStep_refs_of_missing r s hname]
    exact putBy_append_of_fresh TestReference.id (derivedRef r) s.testReferences hid
  refine ⟨hfirst, ?_⟩
  have hne : (((saveReading r s).testReferences.filter
      (fun t => t.testName = r2.testName))).isEmpty = false := by
    rw [hfirst, hsame]
    simp [List.filter_append, hname, derivedRef]
  calc (saveReading r2 (saveReading r s)).testReferences
      = (saveReadingStep r2 (saveReading r s)).testReferences := rfl
    _ = (saveReading r s).testReferences :=
        saveReadingStep_refs_of_existing r2 (saveReading r s) hne

/-- Witness for the amended C3 theorem at the empty store with the
concrete readings `sampleReading1` and `sampleReading2`. -/
theorem saveReading_derives_reference_witness :
    (emptyStore.testReferences.filter (fun t => t.testName = sampleReading1.testName) = []
      ∧ (∀ t ∈ emptyStore.testReferences, t.id ≠ derivedRefId sampleReading1.testName)
      ∧ sampleReading2.testName = sampleReading1.testName)
    ∧ ((saveReading sampleReading1 emptyStore).testReferences
          = emptyStore.testReferences ++ [derivedRef sampleReading1]
      ∧ (saveReading sampleReading2 (saveReading sampleReading1 emptyStore)).testReferences
          = (saveReading sampleReading1 emptyStore).testReferences) :=
  ⟨⟨rfl, by simp [emptyStore], rfl⟩,
    saveReading_derives_reference emptyStore sampleReading1 sampleReading2 rfl
      (by simp [emptyStore]) rfl⟩

/-- C7: saving a reading named "Hemoglobin" and then one named
"hemoglobin" — test names differing only in letter case — against a store
whose catalog reference for the test sits under its own id leaves
duplicate reference records, one per case-variant name: the by-testName
lookup of `saveReading` compares exact strings, so the lower-case variant
misses the catalog entry and a second, derived reference is inserted. -/
theorem saveReading_case_variant_duplicate_references :
    sampleReading1.testName ≠ sampleReadingLower.testName
    ∧ jsToLower sampleReading1.testName = jsToLower sampleReadingLower.testName
    ∧ ((saveReading sampleReadingLower (saveReading sampleReading1 storeSeeded)).testReferences.filter
          (fun t => t.testName = sampleReading1.testName)).length = 1
    ∧ ((saveReading sampleReadingLower (saveReading sampleReading1 storeSeeded)).testReferences.filter
          (fun t => t.testName = sampleReadingLower.testName)).length = 1
    ∧ (saveReading sampleReadingLower (saveReading sampleReading1 storeSeeded)).testReferences.length = 2 := by
  refine ⟨by decide, by decide, by decide, by decide, by decide⟩

/-- Helper: replacing every record keyed like `x` by `x` is the identity
when `x` is the only record with its key. -/
theorem map_put_self {α : Type} (key : α → String) (x : α) (l : List α)
    (huniq : ∀ y ∈ l, key y = key x → y = x) :
    l.map (fun y => if key y = key x then x else y) = l := by
  induction l with
  | nil => rfl
  | cons a t ih =>
    have ht := ih (fun y hy hk => huniq y (List.mem_cons_of_mem a hy) hk)
    by_cases h : key a = key x
    · rw [List.map_cons, ht, if_pos h, huniq a (List.mem_cons_self a t) h]
    · rw [List.map_cons, ht, if_neg h]

/-- Helper: `putBy` of a record already in the list is a no-op when the
list keys are unique. -/
theorem putBy_mem_self {α : Type} (key : α → String) (x : α) (l : List α)
    (hx : x ∈ l) (huniq : ∀ y ∈ l, key y = key x → y = x) :
    putBy key x l = l := by
  have hc : l.any (fun y => key y = key x) = true :=
    List.any_eq_true.2 ⟨x, hx, by simp⟩
  unfold putBy
  rw [if_pos hc, map_put_self key x l huniq]

/-- Helper: folding `putBy` of records of an id-unique list back into that
list changes nothing. -/
theorem foldl_putBy_self {α : Type} (key : α → String) (l0 : List α)
    (huniq : (l0.map key).Nodup) :
    ∀ l : List α, (∀ x ∈ l, x ∈ l0) → l.foldl (fun acc x => putBy key x acc) l0 = l0 := by
  intro l
  induction l with
  | nil => intro _; rfl
  | cons a t ih =>
    intro hsub
    have ha : a ∈ l0 := hsub a (List.mem_cons_self a t)
    rw [List.foldl_cons,
      putBy_mem_self key a l0 ha (fun y hy hk => List.inj_on_of_nodup_map huniq hy ha hk)]
    exact ih (fun x hx => hsub x (List.mem_cons_of_mem a hx))

/-- C2 counterexample: on the store holding the NaN-valued reading that
the unvalidated bulk path can produce, exporting the entire profile and
then importing that snapshot succeeds but observably changes the readings
collection: `JSON.stringify` writes the NaN value as null, so the
re-imported reading carries null where NaN was stored. -/
theorem exportImport_roundTrip_counterexample :
    ∃ s2, importProfile (jsonRoundTrip (exportEntireProfile storeNan)) storeNan = .ok s2
      ∧ getAllReadings s2 ≠ getAllReadings storeNan
      ∧ getAllReadings s2 = [{ sampleReadingNan with value := JSNumber.jsNull }] := by
  refine ⟨importFull (jsonRoundTrip (exportEntireProfile storeNan)) storeNan, rfl, by decide, by decide⟩

/-- C2 amended: for every store whose exported snapshot is unaffected by
JSON serialization — no NaN in any numeric field, NaN being what
`JSON.stringify` writes as null — exporting the entire profile and then
re-importing that exact snapshot succeeds (it matches the full-profile
shape) and leaves the observable content of all four collections —
patients, readings, test references, preferences — unchanged, provided
the collections carry the unique ids IndexedDB guarantees. -/
theorem exportImport_roundTrip (s : Store)
    (h0 : jsonRoundTrip (exportEntireProfile s) = exportEntireProfile s)
    (h1 : (s.patients.map Patient.id).Nodup)
    (h2 : (s.readings.map TestReading.id).Nodup)
    (h3 : (s.testReferences.map TestReference.id).Nodup) :
    ∃ s2, importProfile (jsonRoundTrip (exportEntireProfile s)) s = .ok s2
      ∧ getPatients s2 = getPatients s
      ∧ getAllReadings s2 = getAllReadings s
      ∧ getTestReferences s2 = getTestReferences s
      ∧ getPreferences s2 = getPreferences s := by
  rw [h0]
  have hpat : (importFull (exportEntireProfile s) s).patients
      = s.patients.foldl (fun l p => putBy Patient.id p l) s.patients := rfl
  have hread : (importFull (exportEntireProfile s) s).readings
      = s.readings.foldl (fun l r => putBy TestReading.id r l) s.readings := rfl
  have hrefs : (importFull (exportEntireProfile s) s).testReferences
      = s.testReferences.foldl (fun l t => putBy TestReference.id t l) s.testReferences := rfl
  have hpref : (importFull (exportEntireProfile s) s).preferences
      = some (getPreferences s) := rfl
  refine ⟨importFull (exportEntireProfile s) s, rfl, ?_, ?_, ?_, ?_⟩
  · show (importFull (exportEntireProfile s) s).patients = s.patients
    rw [hpat, foldl_putBy_self Patient.id s.patients h1 s.patients (fun x hx => hx)]
  · show (importFull (exportEntireProfile s) s).readings = s.readings
    rw [hread, foldl_putBy_self TestReading.id s.readings h2 s.readings (fun x hx => hx)]
  · show (importFull (exportEntireProfile s) s).testReferences = s.testReferences
    rw [hrefs, foldl_putBy_self TestReference.id s.testReferences h3 s.testReferences (fun x hx => hx)]
  · show getPreferences (importFull (exportEntireProfile s) s) = getPreferences s
    rw [getPreferences, hpref]
    rfl

/-- Witness for the amended C2 round-trip theorem at the concrete store
`sampleStore1`, whose snapshot holds only finite numeric values. -/
theorem exportImport_roundTrip_witness :
    (jsonRoundTrip (exportEntireProfile sampleStore1) = exportEntireProfile sampleStore1
      ∧ (sampleStore1.patients.map Patient.id).Nodup
      ∧ (sampleStore1.readings.map TestReading.id).Nodup
      ∧ (sampleStore1.testReferences.map TestReference.id).Nodup)
    ∧ ∃ s2, importProfile (jsonRoundTrip (exportEntireProfile sampleStore1)) sampleStore1 = .ok s2
      ∧ getPatients s2 = getPatients sampleStore1
      ∧ getAllReadings s2 = getAllReadings sampleStore1
      ∧ getTestReferences s2 = getTestReferences sampleStore1
      ∧ getPreferences s2 = getPreferences sampleStore1 :=
  ⟨⟨by decide, by decide, by decide, by decide⟩,
    exportImport_roundTrip sampleStore1 (by decide) (by decide) (by decide) (by decide)⟩

/-- C10: a payload with a patients list but no readings list never writes
a patient record: when it also carries a testReferences list the import
succeeds but upserts only those references (patients, readings and
preferences collections are untouched — the payload's patients are
silently ignored), and without a testReferences list the import fails
with the Invalid-Format error. -/
theorem importProfile_patients_without_readings (d : ImportPayload) (s : Store)
    (_hp : d.patients.isSome = true) (hr : d.readings = none) :
    (∀ s2, importProfile d s = .ok s2 →
        s2.patients = s.patients ∧ s2.readings = s.readings
        ∧ s2.preferences = s.preferences
        ∧ s2.testReferences
            = (d.testReferences.getD []).foldl (fun l t => putBy TestReference.id t l) s.testReferences)
    ∧ (d.testReferences = none → importProfile d s = .error "Invalid import format") := by
  have hcond : d.readings.isSome = false := by rw [hr]; rfl
  constructor
  · intro s2 hok
    rw [importProfile] at hok
    simp only [hcond, Bool.and_false, Bool.false_eq_true, if_false] at hok
    split at hok
    · cases hok
      exact ⟨rfl, rfl, rfl, rfl⟩
    · cases hok
  · intro h3
    rw [importProfile]
    simp [hcond, h3]

/-- Witness for the C10 theorem at the concrete payload
`payloadPatientsRefs` against `sampleStore1`. -/
theorem importProfile_patients_without_readings_witness :
    (payloadPatientsRefs.patients.isSome = true ∧ payloadPatientsRefs.readings = none)
    ∧ ((∀ s2, importProfile payloadPatientsRefs sampleStore1 = .ok s2 →
          s2.patients = sampleStore1.patients ∧ s2.readings = sampleStore1.readings
          ∧ s2.preferences = sampleStore1.preferences
          ∧ s2.testReferences
              = (payloadPatientsRefs.testReferences.getD []).foldl
                  (fun l t => putBy TestReference.id t l) sampleStore1.testReferences)
      ∧ (payloadPatientsRefs.testReferences = none →
          importProfile payloadPatientsRefs sampleStore1 = .error "Invalid import format")) :=
  ⟨⟨rfl, rfl⟩, importProfile_patients_without_readings payloadPatientsRefs sampleStore1 rfl rfl⟩

end OpenHealth
